import Mathlib

/-!
Shallow embedding of the SVG thumbnail provider in src/src/lib.rs.

Pure Rust string and pixel computations are translated directly into Lean
functions on character and byte lists.  Calls into external Windows
components (COM, Direct2D, MSXML, GDI) are modelled by explicit oracle
records: each fallible foreign call is one oracle field carrying its
outcome, and observable external state (the parsed XML document, the
mapped GPU surface bytes) is supplied by oracle data.  SVG byte input is
modelled as a character list (the concrete inputs used below are ASCII,
where bytes and characters coincide); pixel data is a list of natural
numbers, each a byte value.  Arithmetic is on Nat: inside the validated
ranges (dimensions at most 4096) none of the u32 arithmetic of the source
can wrap, and the one place where the source widens to u64 before a
compare is modelled with an explicit USIZE bound.
-/

set_option maxHeartbeats 1000000
set_option linter.unusedVariables false

namespace SvgThumbs

/-- HRESULT codes appearing in the source, as an abstract enumeration.
RECREATE_TARGET is D2DERR_RECREATE_TARGET; ALREADY_INITIALIZED and
FILE_TOO_LARGE are the HRESULT encodings of the Win32 errors 1247 and 223. -/
inductive HResult where
  | E_FAIL
  | E_INVALIDARG
  | E_UNEXPECTED
  | RECREATE_TARGET
  | ALREADY_INITIALIZED
  | FILE_TOO_LARGE
  | other (code : Nat)
deriving DecidableEq, Repr

/-- Rust str::contains for a fixed pattern, on character lists. -/
def containsSub (pat : List Char) : List Char → Bool
  | [] => pat.isEmpty
  | c :: rest => pat.isPrefixOf (c :: rest) || containsSub pat rest

/-- Rust str::replace(pat, "") scans left to right and removes the
leftmost non-overlapping occurrences of pat.  The counter argument holds
the number of characters of a just-matched occurrence still to drop. -/
def replaceRemoveAux (pat : List Char) : List Char → Nat → List Char
  | [], _ => []
  | _ :: rest, skp + 1 => replaceRemoveAux pat rest skp
  | c :: rest, 0 =>
      if pat.isPrefixOf (c :: rest) then replaceRemoveAux pat rest (pat.length - 1)
      else c :: replaceRemoveAux pat rest 0

/-- Rust s.replace(pat, "") on character lists. -/
def replaceRemove (pat s : List Char) : List Char := replaceRemoveAux pat s 0

/-- The forced-priority marker stripped by the source. -/
def importantMarker : List Char := "!important".toList

/-- Rust str::trim on character lists. -/
def trimChars (s : List Char) : List Char :=
  ((s.dropWhile Char.isWhitespace).reverse.dropWhile Char.isWhitespace).reverse

/-- Scanner state of remove_css_comments after a comment opener: consume
characters until the closing marker, returning the remainder. -/
def skipCssComment : List Char → List Char
  | [] => []
  | c :: rest => if c = '*' ∧ rest.head? = some '/' then rest.tail else skipCssComment rest

theorem skipCssComment_length_le (l : List Char) : (skipCssComment l).length ≤ l.length := by
  induction l with
  | nil => simp [skipCssComment]
  | cons c rest ih =>
    simp only [skipCssComment]
    split
    · cases rest with
      | nil => simp
      | cons d t => simp; omega
    · exact Nat.le_succ_of_le ih

/-- remove_css_comments from the source: deletes C style block comments in
a single scan (an unterminated comment consumes the rest of the input). -/
def removeCssComments : List Char → List Char
  | [] => []
  | c :: rest =>
    if c = '/' ∧ rest.head? = some '*' then removeCssComments (skipCssComment rest.tail)
    else c :: removeCssComments rest
termination_by l => l.length
decreasing_by
  · rename_i h
    have h1 := skipCssComment_length_le rest.tail
    have h2 : rest ≠ [] := by
      intro hnil
      rw [hnil] at h
      simp at h
    have h3 : rest.tail.length + 1 = rest.length := by
      cases rest with
      | nil => exact absurd rfl h2
      | cons d t => simp
    simp only [List.length_cons]
    omega
  · simp only [List.length_cons]
    omega

/-- normalize_css_properties from the source: split on semicolons, trim
each declaration, drop empty ones, re-append a trailing semicolon. -/
def normalize_css_properties (props : List Char) : List Char :=
  ((props.splitOn ';').map trimChars).foldl
    (fun acc p =>
      if p.isEmpty then acc
      else acc ++ p ++ (if p.getLast? = some ';' then [] else [';']))
    []

/-- Rust str::find of the next opening brace: returns the text before the
brace and the text after it. -/
def splitAtBrace : List Char → Option (List Char × List Char)
  | [] => none
  | c :: rest =>
    if c = '{' then some ([], rest)
    else (splitAtBrace rest).map (fun pr => (c :: pr.1, pr.2))

theorem splitAtBrace_length :
    ∀ (l pre post : List Char), splitAtBrace l = some (pre, post) →
      pre.length + 1 + post.length = l.length := by
  intro l
  induction l with
  | nil => intro pre post h; simp [splitAtBrace] at h
  | cons c rest ih =>
    intro pre post h
    simp only [splitAtBrace] at h
    split at h
    · simp at h
      obtain ⟨h1, h2⟩ := h
      subst h1; subst h2
      simp; omega
    · cases hr : splitAtBrace rest with
      | none => rw [hr] at h; simp at h
      | some pr =>
        rw [hr] at h
        simp at h
        obtain ⟨h1, h2⟩ := h
        have := ih pr.1 pr.2 (by rw [hr])
        subst h1; subst h2
        simp only [List.length_cons]
        omega

/-- find_matching_brace from the source: scanning the text after an
opening brace, returns the index of the matching closing brace, tracking
brace depth, single and double quoted strings, and backslash escapes. -/
def findMatchingBraceIdx : List Char → Nat → Option Char → Bool → Option Nat
  | [], _, _, _ => none
  | c :: rest, level, inString, escaped =>
    if escaped then (findMatchingBraceIdx rest level inString false).map (· + 1)
    else if c = '\\' then (findMatchingBraceIdx rest level inString true).map (· + 1)
    else
      match inString with
      | some q => (findMatchingBraceIdx rest level (if c = q then none else some q) false).map (· + 1)
      | none =>
        if c = '\'' ∨ c = '"' then
          (findMatchingBraceIdx rest level (some c) false).map (· + 1)
        else if c = '{' then
          (findMatchingBraceIdx rest (level + 1) none false).map (· + 1)
        else if c = '}' then
          if level = 1 then some 0
          else (findMatchingBraceIdx rest (level - 1) none false).map (· + 1)
        else
          (findMatchingBraceIdx rest level none false).map (· + 1)

theorem findMatchingBraceIdx_lt :
    ∀ (l : List Char) (lvl : Nat) (s : Option Char) (e : Bool) (i : Nat),
      findMatchingBraceIdx l lvl s e = some i → i < l.length := by
  intro l
  induction l with
  | nil => intro lvl s e i h; simp [findMatchingBraceIdx] at h
  | cons c rest ih =>
    intro lvl s e i h
    simp only [findMatchingBraceIdx] at h
    split at h
    · obtain ⟨j, hj, hji⟩ := Option.map_eq_some'.mp h
      have := ih _ _ _ _ hj
      simp only [List.length_cons]
      omega
    · split at h
      · obtain ⟨j, hj, hji⟩ := Option.map_eq_some'.mp h
        have := ih _ _ _ _ hj
        simp only [List.length_cons]
        omega
      · split at h
        · obtain ⟨j, hj, hji⟩ := Option.map_eq_some'.mp h
          have := ih _ _ _ _ hj
          simp only [List.length_cons]
          omega
        · split at h
          · obtain ⟨j, hj, hji⟩ := Option.map_eq_some'.mp h
            have := ih _ _ _ _ hj
            simp only [List.length_cons]
            omega
          · split at h
            · obtain ⟨j, hj, hji⟩ := Option.map_eq_some'.mp h
              have := ih _ _ _ _ hj
              simp only [List.length_cons]
              omega
            · split at h
              · split at h
                · simp at h
                  simp only [List.length_cons]
                  omega
                · obtain ⟨j, hj, hji⟩ := Option.map_eq_some'.mp h
                  have := ih _ _ _ _ hj
                  simp only [List.length_cons]
                  omega
              · obtain ⟨j, hj, hji⟩ := Option.map_eq_some'.mp h
                have := ih _ _ _ _ hj
                simp only [List.length_cons]
                omega

/-- HashMap entry().or_default().push_str from the source, as an
association list: append the value to an existing entry or insert a new
one.  HashMap iteration order is unspecified in the source; the list
preserves first-insertion order, which no claim depends on. -/
def styleMapAppend (m : List (List Char × List Char)) (k v : List Char) :
    List (List Char × List Char) :=
  match m with
  | [] => [(k, v)]
  | (k', v') :: rest =>
    if k' = k then (k', v' ++ v) :: rest else (k', v') :: styleMapAppend rest k v

/-- Combined length measure of the pending work stack of parse_css_rules. -/
def stackWeight (st : List (List Char)) : Nat := (st.map (fun s => s.length + 1)).sum

/-- The work loop of parse_css_rules: the cursor loop over the current
string fused with the explicit work stack of at-rule bodies (pushed only
while fewer than 256 entries are pending, popped most recent first). -/
def parseCssLoop (current : List Char) (stack : List (List Char))
    (m : List (List Char × List Char)) : List (List Char × List Char) :=
  match hsplit : splitAtBrace current with
  | none =>
    match stack with
    | [] => m
    | s :: stack' => parseCssLoop s stack' m
  | some (selectors, afterBrace) =>
    match hfind : findMatchingBraceIdx afterBrace 1 none false with
    | none =>
      match stack with
      | [] => m
      | s :: stack' => parseCssLoop s stack' m
    | some closeIdx =>
      let props := afterBrace.take closeIdx
      let rest := afterBrace.drop (closeIdx + 1)
      if (trimChars selectors).head? = some '@' then
        let stack' := if stack.length < 256 then props :: stack else stack
        parseCssLoop rest stack' m
      else
        let m' := (selectors.splitOn ',').foldl
          (fun acc sel =>
            let selT := trimChars sel
            if selT.isEmpty then acc
            else styleMapAppend acc selT (normalize_css_properties props))
          m
        parseCssLoop rest stack m'
termination_by current.length + stackWeight stack
decreasing_by
  · simp only [stackWeight, List.map_cons, List.sum_cons]
    omega
  · simp only [stackWeight, List.map_cons, List.sum_cons]
    omega
  · have h1 := splitAtBrace_length _ _ _ hsplit
    have h2 := findMatchingBraceIdx_lt _ _ _ _ _ hfind
    simp only [stackWeight, List.length_drop]
    split
    · simp only [List.map_cons, List.sum_cons, List.length_take]
      omega
    · omega
  · have h1 := splitAtBrace_length _ _ _ hsplit
    have h2 := findMatchingBraceIdx_lt _ _ _ _ _ hfind
    simp only [List.length_drop]
    omega

/-- parse_css_rules from the source: trim, strip comments, then scan rule
blocks, flattening at-rule bodies through the bounded work stack and
accumulating properties per selector. -/
def parse_css_rules (css : List Char) : List (List Char × List Char) :=
  parseCssLoop (removeCssComments (trimChars css)) [] []

/-!
MSXML document model.  The DOM is an external COM component; its
observable state is the text of the style elements and the inline style
attribute of the styled elements, in document order.  Node-level calls
that the source silently skips on failure (get_item, text) are modelled
as succeeding; every call the source propagates with the question mark
operator has its own oracle field.
-/

/-- Observable state of a parsed MSXML document. -/
structure XmlDoc where
  styleTexts : List (List Char)
  inlineStyles : List (List Char)
deriving DecidableEq, Repr

/-- Outcomes of the foreign calls made by extract_css_from_svg_data.
load is Except for a failing call and Ok false for VARIANT_FALSE. -/
structure ExtractOracle where
  comInit : Except HResult Unit
  coCreate : Except HResult Unit
  memStream : Bool
  streamCast : Except HResult Unit
  load : Except HResult Bool
  doc : XmlDoc
  selectStyle : Except HResult Unit
  styleNodesLen : Except HResult Unit
  selectStyled : Except HResult Unit
  styledNodesLen : Except HResult Unit
  getXml : Except HResult Unit
  serialize : XmlDoc → List Char

/-- The per-style-node cleaning step of extract_css_from_svg_data. -/
def cleanStyleText (t : List Char) : List Char := replaceRemove importantMarker t

/-- strip_important_from_inline_styles from the source: every inline
style attribute containing the marker is rewritten with the marker
removed. -/
def strip_important_from_inline_styles (styles : List (List Char)) : List (List Char) :=
  styles.map (fun s => if containsSub importantMarker s then replaceRemove importantMarker s else s)

/-- extract_css_from_svg_data from the source.  Returns the combined CSS
text, the bytes handed on to the rest of the pipeline, and the document
state left behind (none when the load reported failure). -/
def extract_css_from_svg_data (o : ExtractOracle) (svg : List Char) :
    Except HResult (List Char × List Char × Option XmlDoc) := do
  let _ ← o.comInit
  let foundImportant := containsSub importantMarker svg
  let _ ← o.coCreate
  if ¬ o.memStream then throw HResult.E_FAIL
  let _ ← o.streamCast
  let ok ← o.load
  if ok = false then
    return ([], svg, none)
  let _ ← o.selectStyle
  let _ ← o.styleNodesLen
  let cleanedTexts := o.doc.styleTexts.map cleanStyleText
  let combined := (cleanedTexts.map (fun t => t ++ ['\n'])).flatten
  let doc1 : XmlDoc := { o.doc with styleTexts := cleanedTexts }
  if foundImportant then
    let _ ← o.selectStyled
    let _ ← o.styledNodesLen
    let doc2 : XmlDoc := { doc1 with
      inlineStyles := strip_important_from_inline_styles doc1.inlineStyles }
    let _ ← o.getXml
    return (combined, o.serialize doc2, some doc2)
  else
    return (combined, svg, some doc1)

/-- is_valid_css_identifier from the source (the source uses the Unicode
alphabetic and alphanumeric classes; the concrete selectors below are
ASCII, where the Lean character classes agree). -/
def is_valid_css_identifier (s : List Char) : Bool :=
  match s with
  | [] => false
  | first :: rest =>
    (first.isAlpha || first = '_') &&
      rest.all (fun ch => ch.isAlphanum || ch = '-' || ch = '_')

/-- The class-versus-tag dispatch of the selector loop: a selector with a
leading dot is validated as a class name, anything else as a tag name. -/
def selectorAccepted (sel : List Char) : Bool :=
  match sel with
  | '.' :: cls => is_valid_css_identifier cls
  | _ => is_valid_css_identifier sel

/-- The per-element style write of preprocess_svg_with_msxml: none covers
both a failing getAttribute and an empty variant, in which case the
existing style stays empty; otherwise a semicolon separator is appended
to a nonempty existing value not already ending in one, and the new
properties are prepended to the result. -/
def applyStyleToElement (propertiesToApply : List Char) (existing : Option (List Char)) :
    List Char :=
  match existing with
  | none => propertiesToApply
  | some s =>
    let s' := if ¬ s.isEmpty ∧ s.getLast? ≠ some ';' then s ++ [';'] else s
    propertiesToApply ++ s'

/-- Outcomes of the foreign calls made by preprocess_svg_with_msxml.
matchedStyles gives, per selector, the existing inline style of each
element the XPath query matches; resultXml is the serialized mutated
document. -/
structure PreprocessOracle where
  comInit : Except HResult Unit
  coCreate : Except HResult Unit
  memStream : Bool
  streamCast : Except HResult Unit
  load : Except HResult Bool
  selectorNodes : Except HResult Unit
  matchedStyles : List Char → List (Option (List Char))
  getXml : Except HResult Unit
  resultXml : List Char

/-- The style values written back by the selector loop, selectors failing
identifier validation skipped. -/
def preprocessWritebacks (o : PreprocessOracle) (styleMap : List (List Char × List Char)) :
    List (List Char) :=
  styleMap.foldl
    (fun acc kv =>
      if selectorAccepted kv.1 then
        acc ++ (o.matchedStyles kv.1).map (applyStyleToElement kv.2)
      else acc)
    []

/-- preprocess_svg_with_msxml from the source: an empty style map returns
the input untouched before any COM work; a load reporting VARIANT_FALSE
is a hard failure here, unlike in extraction. -/
def preprocess_svg_with_msxml (o : PreprocessOracle) (svg : List Char)
    (styleMap : List (List Char × List Char)) : Except HResult (List Char) := do
  if styleMap.isEmpty then return svg
  let _ ← o.comInit
  let _ ← o.coCreate
  if ¬ o.memStream then throw HResult.E_FAIL
  let _ ← o.streamCast
  let ok ← o.load
  if ok = false then throw HResult.E_FAIL
  let _ ← o.selectorNodes
  let _writebacks := preprocessWritebacks o styleMap
  let _ ← o.getXml
  return o.resultXml

/-!
Thread-local Direct2D resource cache.  The factory, device and context
are created together; one generation number stands for the triple.
-/

/-- The cached triple with its poison flag. -/
structure ThreadRes where
  gen : Nat
  poisoned : Bool
deriving DecidableEq, Repr

/-- The thread-local cell RESOURCES plus a counter supplying fresh
generation numbers for newly created triples. -/
structure CacheState where
  res : Option ThreadRes
  nextGen : Nat
deriving DecidableEq, Repr

def initialCache : CacheState := { res := none, nextGen := 0 }

/-- The creation path of get_d2d_resources, collapsed to one outcome: on
success the freshly created triple is stored unpoisoned and returned; on
failure the cell is left as it was. -/
def create_d2d_resources (createOk : Except HResult Unit) (c : CacheState) :
    Except HResult Nat × CacheState :=
  match createOk with
  | .error e => (.error e, c)
  | .ok _ =>
    (.ok c.nextGen,
      { res := some { gen := c.nextGen, poisoned := false }, nextGen := c.nextGen + 1 })

/-- get_d2d_resources from the source: recreate when the cell is empty or
poisoned, otherwise return the cached triple. -/
def get_d2d_resources (createOk : Except HResult Unit) (c : CacheState) :
    Except HResult Nat × CacheState :=
  match c.res with
  | none => create_d2d_resources createOk c
  | some r => if r.poisoned then create_d2d_resources createOk c else (.ok r.gen, c)

/-- Marks the cached triple poisoned when one exists. -/
def poisonCache (c : CacheState) : CacheState :=
  { c with res := c.res.map (fun r => { r with poisoned := true }) }

/-- D2D1DrawGuard drop from the source: EndDraw runs at scope exit; a
failure with the recreate-target code poisons the cached resources, and
the result of EndDraw is discarded either way (a Drop implementation
cannot return it). -/
def drawGuardDrop (endDraw : Except HResult Unit) (c : CacheState) : CacheState :=
  match endDraw with
  | .ok _ => c
  | .error e => if e = HResult.RECREATE_TARGET then poisonCache c else c

/-!
Pixel transfer from the mapped staging surface into the DIB buffer.
The mapped source is a total byte function; the code only reads indices
below pitch times height.
-/

/-- One bounded memcpy into the destination list: n bytes from f written
starting at the given offset. -/
def copyRow (d : List Nat) (start : Nat) (f : Nat → Nat) (n : Nat) : List Nat :=
  (List.range n).foldl (fun acc o => acc.set (start + o) (f o)) d

/-- The row loop of the strided copy. -/
def rowsFold (d0 : List Nat) (destStride rowCopyLen pitch : Nat) (src : Nat → Nat)
    (h : Nat) : List Nat :=
  (List.range h).foldl
    (fun d y => copyRow d (y * destStride) (fun o => src (y * pitch + o)) rowCopyLen)
    d0

/-- Step 8 of render_svg_to_hbitmap: the destination buffer of
width times height times four bytes is zero filled, then either bulk
copied when the pitch equals the destination stride, or copied row by
row with min(destStride, sourceStride) bytes per row. -/
def pixelTransfer (w h pitch : Nat) (src : Nat → Nat) : List Nat :=
  let destLen := w * h * 4
  let dest0 := List.replicate destLen 0
  if pitch = w * 4 then
    copyRow dest0 0 src destLen
  else
    rowsFold dest0 (w * 4) (min (w * 4) pitch) pitch src h

theorem getD_set (l : List Nat) (i j v : Nat) :
    (l.set i v).getD j 0 = if i = j ∧ j < l.length then v else l.getD j 0 := by
  induction l generalizing i j with
  | nil => simp
  | cons a t ih =>
    cases i with
    | zero =>
      cases j with
      | zero => simp
      | succ j' => simp
    | succ i' =>
      cases j with
      | zero => simp
      | succ j' =>
        simp only [List.set, List.getD_cons_succ, List.length_cons]
        rw [ih i' j']
        by_cases hc : i' = j' ∧ j' < t.length
        · rw [if_pos hc, if_pos (by omega)]
        · rw [if_neg hc, if_neg (by omega)]

theorem copyRow_succ (d : List Nat) (s : Nat) (f : Nat → Nat) (n : Nat) :
    copyRow d s f (n + 1) = (copyRow d s f n).set (s + n) (f n) := by
  simp [copyRow, List.range_succ]

theorem copyRow_length (d : List Nat) (s : Nat) (f : Nat → Nat) (n : Nat) :
    (copyRow d s f n).length = d.length := by
  induction n with
  | zero => simp [copyRow]
  | succ n ih => rw [copyRow_succ, List.length_set, ih]

theorem getD_copyRow (d : List Nat) (s : Nat) (f : Nat → Nat) (n : Nat) (j : Nat) :
    (copyRow d s f n).getD j 0 =
      if s ≤ j ∧ j < s + n ∧ j < d.length then f (j - s) else d.getD j 0 := by
  induction n with
  | zero =>
    simp only [copyRow, List.range_zero, List.foldl_nil]
    rw [if_neg (by omega)]
  | succ n ih =>
    rw [copyRow_succ, getD_set, copyRow_length, ih]
    by_cases h1 : s + n = j ∧ j < d.length
    · rw [if_pos h1, if_pos (by omega)]
      have : j - s = n := by omega
      rw [this]
    · rw [if_neg h1]
      by_cases h2 : s ≤ j ∧ j < s + n ∧ j < d.length
      · rw [if_pos h2, if_pos (by omega)]
      · rw [if_neg h2, if_neg (by omega)]

theorem rowsFold_succ (d0 : List Nat) (dS rcl p : Nat) (src : Nat → Nat) (h : Nat) :
    rowsFold d0 dS rcl p src (h + 1) =
      copyRow (rowsFold d0 dS rcl p src h) (h * dS) (fun o => src (h * p + o)) rcl := by
  simp [rowsFold, List.range_succ]

theorem rowsFold_length (d0 : List Nat) (dS rcl p : Nat) (src : Nat → Nat) (h : Nat) :
    (rowsFold d0 dS rcl p src h).length = d0.length := by
  induction h with
  | zero => simp [rowsFold]
  | succ h ih => rw [rowsFold_succ, copyRow_length, ih]

theorem rowsFold_getD_untouched (d0 : List Nat) (dS rcl p : Nat) (src : Nat → Nat)
    (hrcl : rcl ≤ dS) :
    ∀ (h j : Nat), h * dS ≤ j →
      (rowsFold d0 dS rcl p src h).getD j 0 = d0.getD j 0 := by
  intro h
  induction h with
  | zero => intro j hj; simp [rowsFold]
  | succ h ih =>
    intro j hj
    rw [rowsFold_succ, getD_copyRow, rowsFold_length]
    have hcond : ¬ (h * dS ≤ j ∧ j < h * dS + rcl ∧ j < d0.length) := by
      intro hc
      have : (h + 1) * dS = h * dS + dS := by ring
      omega
    rw [if_neg hcond]
    exact ih j (by nlinarith)

theorem rowsFold_getD (d0 : List Nat) (dS rcl p : Nat) (src : Nat → Nat)
    (hrcl : rcl ≤ dS) :
    ∀ (h y o : Nat), y < h → o < dS → h * dS ≤ d0.length →
      (rowsFold d0 dS rcl p src h).getD (y * dS + o) 0 =
        if o < rcl then src (y * p + o) else d0.getD (y * dS + o) 0 := by
  intro h
  induction h with
  | zero => intro y o hy; omega
  | succ h ih =>
    intro y o hy ho hlen
    have hsucc : (h + 1) * dS = h * dS + dS := by ring
    rw [rowsFold_succ, getD_copyRow, rowsFold_length]
    by_cases hylast : y = h
    · subst hylast
      by_cases horcl : o < rcl
      · have hcond : y * dS ≤ y * dS + o ∧ y * dS + o < y * dS + rcl ∧
            y * dS + o < d0.length := by
          refine ⟨by omega, by omega, ?_⟩
          omega
        rw [if_pos hcond, if_pos horcl]
        congr 1
        omega
      · have hcond : ¬ (y * dS ≤ y * dS + o ∧ y * dS + o < y * dS + rcl ∧
            y * dS + o < d0.length) := by omega
        rw [if_neg hcond, if_neg horcl]
        exact rowsFold_getD_untouched d0 dS rcl p src hrcl y (y * dS + o) (by omega)
    · have hylt : y < h := by omega
      have hcond : ¬ (h * dS ≤ y * dS + o ∧ y * dS + o < h * dS + rcl ∧
          y * dS + o < d0.length) := by
        intro hc
        have : y * dS + o < h * dS := by nlinarith
        omega
      rw [if_neg hcond]
      exact ih y o hylt ho (by omega)

theorem getD_replicate_zero (n j : Nat) : (List.replicate n (0 : Nat)).getD j 0 = 0 := by
  induction n generalizing j with
  | zero => simp
  | succ n ih =>
    cases j with
    | zero => simp [List.replicate]
    | succ j' => simp [List.replicate, List.getD_cons_succ, ih]

/-!
The render pipeline render_svg_to_hbitmap.
-/

/-- Outcomes of the foreign calls made by one render, in call order.  The
mapped staging bytes depend on which surface was copied out: the
premultiplied render target, the effect output after DrawImage ran, or
the effect output when the cast failure skipped DrawImage. -/
structure RenderOracle where
  create : Except HResult Unit
  createTarget : Except HResult Unit
  extractO : ExtractOracle
  preO : PreprocessOracle
  svgStream : Bool
  createSvgDoc : Except HResult Unit
  endDraw1 : Except HResult Unit
  createEffect : Except HResult Unit
  createEffectOutput : Except HResult Unit
  effectCast : Bool
  endDraw2 : Except HResult Unit
  createStaging : Except HResult Unit
  copyFromBitmap : Except HResult Unit
  mapBitmap : Except HResult Unit
  pitch : Nat
  premultBytes : Nat → Nat
  effectBytes : Nat → Nat
  effectUndrawnBytes : Nat → Nat
  createDib : Except HResult Unit

/-- The GZIP magic check (0x1F 0x8B) detecting SVGZ input. -/
def isCompressedSvg (svg : List Char) : Bool :=
  match svg with
  | a :: b :: _ => a = Char.ofNat 0x1F && b = Char.ofNat 0x8B
  | _ => false

/-- The CSS stage inside the draw session: compressed input skips it;
otherwise extract, and when the extracted CSS is not all whitespace,
parse and inline it. -/
def cssStage (o : RenderOracle) (svg : List Char) : Except HResult (List Char) :=
  if isCompressedSvg svg then .ok svg
  else do
    let r ← extract_css_from_svg_data o.extractO svg
    if (trimChars r.1).isEmpty then
      return r.2.1
    else
      preprocess_svg_with_msxml o.preO r.2.1 (parse_css_rules r.1)

/-- The body of the first draw session: CSS processing, the memory
stream, and CreateSvgDocument.  Clear, the root attribute rewrites (all
results discarded by the source) and DrawSvgDocument have no modelled
effect. -/
def renderDrawBody (o : RenderOracle) (svg : List Char) : Except HResult Unit := do
  let _processed ← cssStage o svg
  if ¬ o.svgStream then throw HResult.E_FAIL
  let _ ← o.createSvgDoc
  return ()

/-- Which surface reaches the staging copy. -/
inductive SurfaceChoice where
  | premultiplied
  | effectOutput
deriving DecidableEq, Repr

/-- The UnPremultiply effect stage: a failing CreateEffect falls back to
the original render target bitmap; otherwise the effect output bitmap is
created (a failure there aborts the render), the second draw session
runs (its EndDraw handled by the guard drop), and the effect output is
used regardless of whether the cast to ID2D1Image succeeded. -/
def effectStage (o : RenderOracle) (c : CacheState) :
    Except HResult SurfaceChoice × CacheState :=
  match o.createEffect with
  | .error _ => (.ok SurfaceChoice.premultiplied, c)
  | .ok _ =>
    match o.createEffectOutput with
    | .error e => (.error e, c)
    | .ok _ => (.ok SurfaceChoice.effectOutput, drawGuardDrop o.endDraw2 c)

/-- The mapped staging bytes for the chosen surface.  A failed cast left
the effect output bitmap undrawn. -/
def mappedSource (o : RenderOracle) : SurfaceChoice → Nat → Nat
  | SurfaceChoice.premultiplied => o.premultBytes
  | SurfaceChoice.effectOutput =>
    if o.effectCast then o.effectBytes else o.effectUndrawnBytes

/-- usize::MAX of the 64 bit build the source targets. -/
def USIZE_MAX : Nat := 2 ^ 64 - 1

/-- Observable outcome of one render call: the result (pixel bytes of
the DIB on success, with the bitmap handle abstracted away), the cache
state left behind, and whether get_d2d_resources was ever reached. -/
structure RenderRun where
  result : Except HResult (List Nat)
  cacheOut : CacheState
  gpuTouched : Bool

/-- The main closure of render_svg_to_hbitmap, in source order:
dimension validation, resource acquisition, render target creation, the
first draw session (whose EndDraw runs through the guard drop even when
the body failed early), the effect stage, staging copy, mapping, DIB
creation, the widened size check, and the pixel transfer.  A successful
CreateDIBSection provides valid bits per the API contract, so the
defensive null check of the source is not a reachable branch here. -/
def renderCore (o : RenderOracle) (c : CacheState) (svg : List Char) (w h : Nat) :
    RenderRun :=
  if w = 0 ∨ h = 0 ∨ 4096 < w ∨ 4096 < h then
    { result := .error HResult.E_INVALIDARG, cacheOut := c, gpuTouched := false }
  else
    match get_d2d_resources o.create c with
    | (.error e, c1) => { result := .error e, cacheOut := c1, gpuTouched := true }
    | (.ok _gen, c1) =>
      match o.createTarget with
      | .error e => { result := .error e, cacheOut := c1, gpuTouched := true }
      | .ok _ =>
        match renderDrawBody o svg with
        | .error e =>
          { result := .error e, cacheOut := drawGuardDrop o.endDraw1 c1, gpuTouched := true }
        | .ok _ =>
          match effectStage o (drawGuardDrop o.endDraw1 c1) with
          | (.error e, c3) => { result := .error e, cacheOut := c3, gpuTouched := true }
          | (.ok choice, c3) =>
            match o.createStaging with
            | .error e => { result := .error e, cacheOut := c3, gpuTouched := true }
            | .ok _ =>
              match o.copyFromBitmap with
              | .error e => { result := .error e, cacheOut := c3, gpuTouched := true }
              | .ok _ =>
                match o.mapBitmap with
                | .error e => { result := .error e, cacheOut := c3, gpuTouched := true }
                | .ok _ =>
                  match o.createDib with
                  | .error e => { result := .error e, cacheOut := c3, gpuTouched := true }
                  | .ok _ =>
                    if USIZE_MAX < o.pitch * h then
                      { result := .error HResult.E_FAIL, cacheOut := c3, gpuTouched := true }
                    else
                      { result := .ok (pixelTransfer w h o.pitch (mappedSource o choice)),
                        cacheOut := c3, gpuTouched := true }

/-- render_svg_to_hbitmap from the source: the closure result is
inspected, and an error carrying the recreate-target code poisons the
thread resources before being returned. -/
def render_svg_to_hbitmap (o : RenderOracle) (c : CacheState) (svg : List Char)
    (w h : Nat) : RenderRun :=
  let run := renderCore o c svg w h
  match run.result with
  | .error e =>
    if e = HResult.RECREATE_TARGET then
      { run with cacheOut := poisonCache run.cacheOut }
    else run
  | .ok _ => run

/-!
Fallback thumbnail and the COM entry points.
-/

/-- The hardcoded broken-file placeholder SVG of the source. -/
def FALLBACK_SVG : List Char :=
  String.toList "<svg xmlns=\"http://www.w3.org/2000/svg\" viewBox=\"0 0 256 256\"><g><line stroke-width=\"2\" stroke=\"#ff0000\" y2=\"256\" x2=\"0\" y1=\"0\" x1=\"256\" fill=\"none\"/><line stroke-width=\"2\" y2=\"256\" x2=\"256\" y1=\"0\" x1=\"0\" stroke=\"#ff0000\" fill=\"none\"/></g></svg>"

/-- Outcome of the last-resort CreateDIBSection call. -/
structure LastResortOracle where
  createDib : Except HResult Unit

/-- The last-resort fill: every pixel becomes the little-endian bytes of
0xFF000000, that is BGRA (0, 0, 0, 255), opaque black. -/
def lastResortPixels (size : Nat) : List Nat :=
  (List.replicate (size * size) ([0, 0, 0, 255] : List Nat)).flatten

/-- create_fallback_thumbnail from the source: render the placeholder SVG
through the full pipeline, and only if that fails allocate a DIB (which
can itself fail) and fill it with opaque black. -/
def create_fallback_thumbnail (o : RenderOracle) (lr : LastResortOracle)
    (c : CacheState) (size : Nat) : Except HResult (List Nat) × CacheState :=
  match (render_svg_to_hbitmap o c FALLBACK_SVG size size).result with
  | .ok out => (.ok out, (render_svg_to_hbitmap o c FALLBACK_SVG size size).cacheOut)
  | .error _ =>
    match lr.createDib with
    | .error e2 => (.error e2, (render_svg_to_hbitmap o c FALLBACK_SVG size size).cacheOut)
    | .ok _ =>
      (.ok (lastResortPixels size), (render_svg_to_hbitmap o c FALLBACK_SVG size size).cacheOut)

/-- WTS_ALPHATYPE values the source writes. -/
inductive AlphaTy where
  | unknown
  | argb
deriving DecidableEq, Repr

/-- Observable state of one ThumbnailProvider instance: the stored input
bytes and whether its mutex is poisoned. -/
structure ProviderState where
  svgData : Option (List Char)
  lockPoisoned : Bool
deriving DecidableEq, Repr

/-- Observable outcome of GetThumbnail: the returned result and the
final values of the two output parameters (phbmp none means the null
handle). -/
structure GTOut where
  result : Except HResult Unit
  phbmp : Option (List Nat)
  pdwalpha : AlphaTy
  cacheOut : CacheState

/-- GetThumbnail from the source: both output parameters are written
with their safe defaults (null handle, WTSAT_UNKNOWN) before any other
work, so every error return leaves them in place; only a success writes
a bitmap together with WTSAT_ARGB. -/
def GetThumbnail (oRender oFallback : RenderOracle) (lr : LastResortOracle)
    (st : ProviderState) (c : CacheState) (cx : Nat) : GTOut :=
  if st.lockPoisoned then
    { result := .error HResult.E_FAIL, phbmp := none, pdwalpha := .unknown, cacheOut := c }
  else
    match st.svgData with
    | none =>
      { result := .error HResult.E_UNEXPECTED, phbmp := none, pdwalpha := .unknown,
        cacheOut := c }
    | some svg =>
      match (render_svg_to_hbitmap oRender c svg cx cx).result with
      | .ok pix =>
        { result := .ok (), phbmp := some pix, pdwalpha := .argb,
          cacheOut := (render_svg_to_hbitmap oRender c svg cx cx).cacheOut }
      | .error e =>
        match create_fallback_thumbnail oFallback lr
            (render_svg_to_hbitmap oRender c svg cx cx).cacheOut cx with
        | (.ok pix, c2) =>
          { result := .ok (), phbmp := some pix, pdwalpha := .argb, cacheOut := c2 }
        | (.error _, c2) =>
          { result := .error e, phbmp := none, pdwalpha := .unknown, cacheOut := c2 }

/-!
IInitializeWithStream::Initialize.
-/

/-- The 101 MiB input cap of the source. -/
def MAX_SVG_SIZE : Nat := 101 * 1024 * 1024

/-- Outcomes of the stream calls made by Initialize: the optional size
reported by Stat, and the successive Read results (an error or an empty
read ends the loop). -/
structure InitOracle where
  stat : Option Nat
  reads : List (Except HResult (List Char))

/-- The chunked read loop of Initialize: a read error or a zero-byte
read breaks with the bytes accumulated so far; a chunk that would push
the buffer past the cap fails with the file-too-large error before being
appended. -/
def readAllChunks : List (Except HResult (List Char)) → List Char → Except HResult (List Char)
  | [], buf => .ok buf
  | step :: rest, buf =>
    match step with
    | .error _ => .ok buf
    | .ok [] => .ok buf
    | .ok bytes =>
      if MAX_SVG_SIZE < buf.length + bytes.length then .error HResult.FILE_TOO_LARGE
      else readAllChunks rest (buf ++ bytes)

/-- The read-and-store phase of Initialize, entered only once the guards
have passed: the whole buffer is stored in one assignment at the end, so
a failing read loop stores nothing. -/
def initializeReadPhase (o : InitOracle) (st : ProviderState) :
    Except HResult Unit × ProviderState :=
  match readAllChunks o.reads [] with
  | .error e => (.error e, st)
  | .ok buf => (.ok (), { st with svgData := some buf })

/-- Initialize from the source, in source order: the mutex is taken
first (a poisoned lock fails with E_FAIL), a second call on an already
initialized instance fails with the already-initialized error, a null
stream fails with E_INVALIDARG, an oversize Stat report fails fast, and
otherwise the chunked read loop runs. -/
def InitializeProvider (o : InitOracle) (st : ProviderState) (streamPresent : Bool) :
    Except HResult Unit × ProviderState :=
  if st.lockPoisoned then (.error HResult.E_FAIL, st)
  else if st.svgData.isSome then (.error HResult.ALREADY_INITIALIZED, st)
  else if ¬ streamPresent then (.error HResult.E_INVALIDARG, st)
  else
    match o.stat with
    | some size =>
      if 0 < size ∧ MAX_SVG_SIZE < size then (.error HResult.FILE_TOO_LARGE, st)
      else initializeReadPhase o st
    | none => initializeReadPhase o st

/-!
The CPU un-premultiply pass described by the specification.  Modelled
from the spec: the specification's AlphaCompositor describes a CPU
un-premultiply fallback (alpha 255 copied unchanged, alpha 0 zeroed,
otherwise each channel scaled by a table of (255 shifted left by 8)
divided by alpha, the product shifted right by 8).  No such pass exists
anywhere in src; these definitions render the spec text for comparison
against the code's verbatim byte copy.
-/

/-- Modelled from the spec: the 256 entry multiplier table,
(255 shifted left by 8) divided by alpha. -/
def specUnpremultiplyTable (alpha : Nat) : Nat := (255 * 256) / alpha

/-- Modelled from the spec: the per-pixel CPU un-premultiply the claim
describes, on BGRA byte values. -/
def specUnpremultiplyPixel (b g r a : Nat) : List Nat :=
  if a = 255 then [b, g, r, a]
  else if a = 0 then [0, 0, 0, 0]
  else
    [b * specUnpremultiplyTable a / 256, g * specUnpremultiplyTable a / 256,
      r * specUnpremultiplyTable a / 256, a]

/-!
Concrete oracle instances used by witnesses and counterexamples: every
foreign call succeeding, with neutral document and surface contents.
-/

def dummyXmlDoc : XmlDoc := { styleTexts := [], inlineStyles := [] }

def extractOracleOk : ExtractOracle :=
  { comInit := .ok (), coCreate := .ok (), memStream := true, streamCast := .ok (),
    load := .ok true, doc := dummyXmlDoc, selectStyle := .ok (), styleNodesLen := .ok (),
    selectStyled := .ok (), styledNodesLen := .ok (), getXml := .ok (),
    serialize := fun _ => [] }

def preOracleOk : PreprocessOracle :=
  { comInit := .ok (), coCreate := .ok (), memStream := true, streamCast := .ok (),
    load := .ok true, selectorNodes := .ok (), matchedStyles := fun _ => [],
    getXml := .ok (), resultXml := [] }

def renderOracleOk : RenderOracle :=
  { create := .ok (), createTarget := .ok (), extractO := extractOracleOk,
    preO := preOracleOk, svgStream := true, createSvgDoc := .ok (), endDraw1 := .ok (),
    createEffect := .ok (), createEffectOutput := .ok (), effectCast := true,
    endDraw2 := .ok (), createStaging := .ok (), copyFromBitmap := .ok (),
    mapBitmap := .ok (), pitch := 4, premultBytes := fun _ => 0,
    effectBytes := fun _ => 0, effectUndrawnBytes := fun _ => 0, createDib := .ok () }

/-- A two byte GZIP header: the smallest input the pipeline treats as
compressed SVGZ, skipping the CSS stage. -/
def svgzMagic : List Char := [Char.ofNat 0x1F, Char.ofNat 0x8B]

/-- A minimal uncompressed input. -/
def svgPlain : List Char := String.toList "<svg/>"

/-!
Shared helper lemmas about the pipeline.
-/

theorem render_result_eq (o : RenderOracle) (c : CacheState) (svg : List Char) (w h : Nat) :
    (render_svg_to_hbitmap o c svg w h).result = (renderCore o c svg w h).result := by
  unfold render_svg_to_hbitmap
  cases hr : (renderCore o c svg w h).result with
  | ok v => simp [hr]
  | error e =>
    simp only [hr]
    split <;> simp [hr]

theorem get_d2d_resources_ok (c : CacheState) :
    ∃ g c1, get_d2d_resources (Except.ok ()) c = (Except.ok g, c1) := by
  unfold get_d2d_resources create_d2d_resources
  cases hres : c.res with
  | none => exact ⟨_, _, rfl⟩
  | some r =>
    by_cases hp : r.poisoned
    · simp [hp]
    · simp [hp]

theorem pixelTransfer_length (w h pitch : Nat) (src : Nat → Nat) :
    (pixelTransfer w h pitch src).length = w * h * 4 := by
  unfold pixelTransfer
  split
  · rw [copyRow_length, List.length_replicate]
  · rw [rowsFold_length, List.length_replicate]

theorem pixelTransfer_bulk (w h pitch : Nat) (src : Nat → Nat)
    (hp : pitch = w * 4) (i : Nat) (hi : i < w * h * 4) :
    (pixelTransfer w h pitch src).getD i 0 = src i := by
  unfold pixelTransfer
  rw [if_pos hp, getD_copyRow]
  rw [if_pos (by simp [List.length_replicate]; omega)]
  simp

theorem pixelTransfer_rows (w h pitch : Nat) (src : Nat → Nat)
    (hp : pitch ≠ w * 4) (y o : Nat) (hy : y < h) (ho : o < w * 4) :
    (o < min (w * 4) pitch →
      (pixelTransfer w h pitch src).getD (y * (w * 4) + o) 0 = src (y * pitch + o))
    ∧ (min (w * 4) pitch ≤ o →
      (pixelTransfer w h pitch src).getD (y * (w * 4) + o) 0 = 0) := by
  unfold pixelTransfer
  rw [if_neg hp]
  have hlen : h * (w * 4) ≤ (List.replicate (w * h * 4) (0 : Nat)).length := by
    simp [List.length_replicate]
    ring_nf
    omega
  constructor
  · intro holt
    rw [rowsFold_getD _ _ _ _ _ (min_le_left _ _) h y o hy ho hlen, if_pos holt]
  · intro hge
    rw [rowsFold_getD _ _ _ _ _ (min_le_left _ _) h y o hy ho hlen, if_neg (by omega)]
    exact getD_replicate_zero _ _

theorem flatten_replicate_length (k : Nat) (l : List Nat) :
    ((List.replicate k l).flatten).length = k * l.length := by
  induction k with
  | zero => simp
  | succ k ih =>
    simp only [List.replicate_succ, List.flatten_cons, List.length_append, ih]
    ring

theorem lastResortPixels_length (n : Nat) : (lastResortPixels n).length = n * n * 4 := by
  unfold lastResortPixels
  rw [flatten_replicate_length]
  rfl

/-!
Claim theorems.
-/

/-- Oracle for a render whose UnPremultiply effect creation fails, over a
single premultiplied pixel BGRA (128, 0, 0, 128). -/
def oracleEffectFail : RenderOracle :=
  { renderOracleOk with
    createEffect := .error HResult.E_FAIL,
    premultBytes := fun i => [128, 0, 0, 128].getD i 0,
    effectBytes := fun _ => 7,
    effectUndrawnBytes := fun _ => 9 }

/-- Oracle for a render where the effect is created but the cast to the
drawable-image interface fails, with distinguishable surface contents. -/
def oracleCastFail : RenderOracle :=
  { renderOracleOk with
    effectCast := false,
    premultBytes := fun i => [128, 0, 0, 128].getD i 0,
    effectBytes := fun _ => 7,
    effectUndrawnBytes := fun _ => 9 }

/-- C1 counterexample: with effect creation failed, the render returns
the premultiplied bytes (128, 0, 0, 128) verbatim, whereas the CPU
un-premultiply the claim describes would produce (255, 0, 0, 128); and
with only the cast failed, the render returns the undrawn effect output
bitmap, not the original premultiplied surface. -/
theorem c1_counterexample :
    (render_svg_to_hbitmap oracleEffectFail initialCache svgzMagic 1 1).result
      = Except.ok [128, 0, 0, 128]
    ∧ specUnpremultiplyPixel 128 0 0 128 = [255, 0, 0, 128]
    ∧ ([128, 0, 0, 128] : List Nat) ≠ [255, 0, 0, 128]
    ∧ (render_svg_to_hbitmap oracleCastFail initialCache svgzMagic 1 1).result
      = Except.ok [9, 9, 9, 9]
    ∧ ([9, 9, 9, 9] : List Nat) ≠ [128, 0, 0, 128] :=
  ⟨rfl, rfl, by decide, rfl, by decide⟩

/-- C1 amended: when effect creation fails the pipeline uses the
original premultiplied surface and copies its bytes unchanged, with no
un-premultiplication performed anywhere on the CPU; when effect creation
succeeds but the cast fails, the pipeline still uses the effect output
bitmap, whose contents are the undrawn surface. -/
theorem c1_amended :
    ∀ (o : RenderOracle) (c : CacheState),
      (∀ e, o.createEffect = Except.error e →
        effectStage o c = (Except.ok SurfaceChoice.premultiplied, c)
        ∧ mappedSource o SurfaceChoice.premultiplied = o.premultBytes)
      ∧ (o.createEffect = Except.ok () → o.createEffectOutput = Except.ok () →
          (effectStage o c).1 = Except.ok SurfaceChoice.effectOutput)
      ∧ (o.effectCast = false →
          mappedSource o SurfaceChoice.effectOutput = o.effectUndrawnBytes)
      ∧ (∀ w h i, o.pitch = w * 4 → i < w * h * 4 →
          (pixelTransfer w h o.pitch (mappedSource o SurfaceChoice.premultiplied)).getD i 0
            = o.premultBytes i) := by
  intro o c
  refine ⟨?_, ?_, ?_, ?_⟩
  · intro e he
    constructor
    · unfold effectStage
      rw [he]
    · rfl
  · intro h1 h2
    unfold effectStage
    rw [h1, h2]
  · intro hcast
    unfold mappedSource
    rw [hcast]
    simp
  · intro w h i hp hi
    exact pixelTransfer_bulk w h o.pitch _ hp i hi

/-- C1 amended witness at the concrete effect-failure oracle. -/
theorem c1_witness :
    effectStage oracleEffectFail initialCache
      = (Except.ok SurfaceChoice.premultiplied, initialCache)
    ∧ (pixelTransfer 1 1 oracleEffectFail.pitch
        (mappedSource oracleEffectFail SurfaceChoice.premultiplied)).getD 0 0
      = oracleEffectFail.premultBytes 0 :=
  ⟨((c1_amended oracleEffectFail initialCache).1 HResult.E_FAIL rfl).1,
    (c1_amended oracleEffectFail initialCache).2.2.2 1 1 0 rfl (by decide)⟩

/-- Oracle for a render whose first EndDraw reports the recreate-target
code while everything else succeeds. -/
def oracleEndDrawLost : RenderOracle :=
  { renderOracleOk with endDraw1 := .error HResult.RECREATE_TARGET }

/-- C2 counterexample: when the end-of-draw step fails with the
recreate-target code, the render still returns success (the guard drop
discards the EndDraw result, so no error reaches the caller), even
though the thread resources do get poisoned. -/
theorem c2_counterexample :
    (render_svg_to_hbitmap oracleEndDrawLost initialCache svgzMagic 1 1).result
      = Except.ok [0, 0, 0, 0]
    ∧ (render_svg_to_hbitmap oracleEndDrawLost initialCache svgzMagic 1 1).cacheOut.res
      = some { gen := 0, poisoned := true } :=
  ⟨rfl, rfl⟩

/-- C2 amended: an EndDraw failure with the recreate-target code poisons
the thread's cached resources (the failure itself is discarded by the
guard drop and not returned), and the next acquisition on the thread
discards the cached triple and creates a fresh one instead of returning
it. -/
theorem c2_amended :
    ∀ (c : CacheState) (r : ThreadRes), c.res = some r → r.gen < c.nextGen →
      (drawGuardDrop (Except.error HResult.RECREATE_TARGET) c).res
        = some { gen := r.gen, poisoned := true }
      ∧ (get_d2d_resources (Except.ok ())
          (drawGuardDrop (Except.error HResult.RECREATE_TARGET) c)).1
          = Except.ok c.nextGen
      ∧ c.nextGen ≠ r.gen
      ∧ (get_d2d_resources (Except.ok ())
          (drawGuardDrop (Except.error HResult.RECREATE_TARGET) c)).2.res
          = some { gen := c.nextGen, poisoned := false } := by
  intro c r hres hgen
  have hdrop : (drawGuardDrop (Except.error HResult.RECREATE_TARGET) c).res
      = some { gen := r.gen, poisoned := true } := by
    simp [drawGuardDrop, poisonCache, hres]
  have hnext : (drawGuardDrop (Except.error HResult.RECREATE_TARGET) c).nextGen
      = c.nextGen := by
    simp [drawGuardDrop, poisonCache]
  refine ⟨hdrop, ?_, by omega, ?_⟩
  · unfold get_d2d_resources
    rw [hdrop]
    simp [create_d2d_resources, hnext]
  · unfold get_d2d_resources
    rw [hdrop]
    simp [create_d2d_resources, hnext]

/-- C2 amended witness at a concrete ready cache. -/
theorem c2_witness :
    (drawGuardDrop (Except.error HResult.RECREATE_TARGET)
      { res := some { gen := 0, poisoned := false }, nextGen := 1 }).res
      = some { gen := 0, poisoned := true }
    ∧ (get_d2d_resources (Except.ok ())
        (drawGuardDrop (Except.error HResult.RECREATE_TARGET)
          { res := some { gen := 0, poisoned := false }, nextGen := 1 })).1
      = Except.ok 1
    ∧ (1 : Nat) ≠ 0
    ∧ (get_d2d_resources (Except.ok ())
        (drawGuardDrop (Except.error HResult.RECREATE_TARGET)
          { res := some { gen := 0, poisoned := false }, nextGen := 1 })).2.res
      = some { gen := 1, poisoned := false } :=
  c2_amended { res := some { gen := 0, poisoned := false }, nextGen := 1 }
    { gen := 0, poisoned := false } rfl (by decide)

/-- C3: a zero or oversized dimension is rejected with E_INVALIDARG
before get_d2d_resources is reached, leaving the cache untouched. -/
theorem c3_reject_invalid_dimensions :
    ∀ (o : RenderOracle) (c : CacheState) (svg : List Char) (w h : Nat),
      (w = 0 ∨ h = 0 ∨ 4096 < w ∨ 4096 < h) →
      render_svg_to_hbitmap o c svg w h
        = { result := Except.error HResult.E_INVALIDARG, cacheOut := c,
            gpuTouched := false } := by
  intro o c svg w h hdim
  unfold render_svg_to_hbitmap renderCore
  rw [if_pos hdim]
  rfl

/-- C3 witness at width zero. -/
theorem c3_witness :
    render_svg_to_hbitmap renderOracleOk initialCache [] 0 5
      = { result := Except.error HResult.E_INVALIDARG, cacheOut := initialCache,
          gpuTouched := false } :=
  c3_reject_invalid_dimensions renderOracleOk initialCache [] 0 5 (Or.inl rfl)

/-- C4: the destination buffer always has width times height times four
bytes with stride width times four; a matching pitch is one bulk copy of
the source; otherwise each row copies min(destStride, pitch) bytes and
the remaining bytes of the row stay at the zero fill; and every
successful render's pixel buffer is exactly this transfer applied to the
mapped bytes of the chosen surface at the reported pitch. -/
theorem c4_pixel_buffer :
    ∀ (w h pitch : Nat) (src : Nat → Nat),
      (pixelTransfer w h pitch src).length = w * h * 4
      ∧ (pitch = w * 4 →
          ∀ i, i < w * h * 4 → (pixelTransfer w h pitch src).getD i 0 = src i)
      ∧ (pitch ≠ w * 4 → ∀ y o, y < h → o < w * 4 →
          ((o < min (w * 4) pitch →
            (pixelTransfer w h pitch src).getD (y * (w * 4) + o) 0 = src (y * pitch + o))
           ∧ (min (w * 4) pitch ≤ o →
            (pixelTransfer w h pitch src).getD (y * (w * 4) + o) 0 = 0)))
      ∧ (∀ (ro : RenderOracle) (c : CacheState) (svg : List Char) (ww hh : Nat)
            (out : List Nat),
          (render_svg_to_hbitmap ro c svg ww hh).result = Except.ok out →
          ∃ choice, out = pixelTransfer ww hh ro.pitch (mappedSource ro choice)) := by
  intro w h pitch src
  refine ⟨pixelTransfer_length w h pitch src, ?_, ?_, ?_⟩
  · intro hp i hi
    exact pixelTransfer_bulk w h pitch src hp i hi
  · intro hp y o hy ho
    exact pixelTransfer_rows w h pitch src hp y o hy ho
  · intro ro c svg ww hh out hout
    rw [render_result_eq] at hout
    unfold renderCore at hout
    repeat' split at hout
    all_goals first
      | exact ⟨_, (Except.ok.inj hout).symm⟩
      | simp at hout

/-- C4 witness: a strided transfer at width one, pitch eight. -/
theorem c4_witness :
    (pixelTransfer 1 1 8 (fun i => i + 1)).getD 0 0 = 1 :=
  ((c4_pixel_buffer 1 1 8 (fun i => i + 1)).2.2.1 (by decide) 0 0 (by decide) (by decide)).1
    (by decide)

/-- Oracle for a render whose CSS extraction fails at COM
initialization, everything else succeeding. -/
def oracleCssFail : RenderOracle :=
  { renderOracleOk with
    extractO := { extractOracleOk with comInit := .error HResult.E_FAIL } }

/-- C5 counterexample: a failure inside the CSS stage (here the COM
initialization of the extraction step) propagates through the question
mark operators and fails the whole render call, instead of the render
continuing with the original bytes. -/
theorem c5_counterexample :
    (render_svg_to_hbitmap oracleCssFail initialCache svgPlain 1 1).result
      = Except.error HResult.E_FAIL :=
  rfl

/-- C5 amended: when the document load itself reports failure, the
extraction returns the original bytes with an empty stylesheet and no
error; but every other CSS-stage failure (COM, stream, node or
serialization calls, and a load failure inside the style application
pass) propagates and fails the render call, the fallback happening only
at the GetThumbnail boundary. -/
theorem c5_amended :
    ∀ (svg : List Char),
      (∀ (o : ExtractOracle), o.comInit = Except.ok () → o.coCreate = Except.ok () →
        o.memStream = true → o.streamCast = Except.ok () → o.load = Except.ok false →
        extract_css_from_svg_data o svg = Except.ok ([], svg, none))
      ∧ (∀ (ro : RenderOracle) (c : CacheState) (w h : Nat) (e : HResult),
          ¬ (w = 0 ∨ h = 0 ∨ 4096 < w ∨ 4096 < h) →
          isCompressedSvg svg = false →
          ro.create = Except.ok () → ro.createTarget = Except.ok () →
          ro.extractO.comInit = Except.error e →
          (render_svg_to_hbitmap ro c svg w h).result = Except.error e) := by
  intro svg
  constructor
  · intro o h1 h2 h3 h4 h5
    unfold extract_css_from_svg_data
    rw [h1, h2, h3, h4, h5]
    rfl
  · intro ro c w h e hdim hcomp hcr hct hci
    have hextract : extract_css_from_svg_data ro.extractO svg = Except.error e := by
      unfold extract_css_from_svg_data
      rw [hci]
      rfl
    have hbody : renderDrawBody ro svg = Except.error e := by
      unfold renderDrawBody cssStage
      rw [if_neg (by simp [hcomp]), hextract]
      rfl
    rw [render_result_eq]
    unfold renderCore
    rw [if_neg hdim, hcr]
    obtain ⟨g, c1, hg⟩ := get_d2d_resources_ok c
    rw [hg, hct, hbody]

/-- C5 witness: the lenient parse-failure path at a concrete oracle, and
the propagating COM failure at the concrete oracle of the
counterexample. -/
theorem c5_witness :
    extract_css_from_svg_data { extractOracleOk with load := .ok false } svgPlain
      = Except.ok ([], svgPlain, none)
    ∧ (render_svg_to_hbitmap oracleCssFail initialCache svgPlain 1 1).result
      = Except.error HResult.E_FAIL :=
  ⟨(c5_amended svgPlain).1 { extractOracleOk with load := .ok false } rfl rfl rfl rfl rfl,
    (c5_amended svgPlain).2 oracleCssFail initialCache 1 1 HResult.E_FAIL (by decide)
      (by decide) rfl rfl rfl⟩

/-- Extraction oracle whose parsed document carries a style element with
overlapping copies of the priority marker. -/
def extractOracleImportant : ExtractOracle :=
  { extractOracleOk with
    doc := { styleTexts := [String.toList "!!importantimportant"], inlineStyles := [] } }

/-- The uncompressed input embedding that style element. -/
def svgImportant : List Char :=
  String.toList "<svg><style>!!importantimportant</style></svg>"

/-- C6: evaluating the code at the failing input: the single-pass
replace removes the one occurrence of the marker but the removal
concatenates the surrounding fragments into a fresh occurrence, so the
marker survives preprocessing in the retained stylesheet text. -/
theorem c6_marker_survives :
    replaceRemove importantMarker (String.toList "!!importantimportant")
      = String.toList "!important"
    ∧ containsSub importantMarker (String.toList "!!importantimportant") = true
    ∧ containsSub importantMarker
        (replaceRemove importantMarker (String.toList "!!importantimportant")) = true
    ∧ extract_css_from_svg_data extractOracleImportant svgImportant
      = Except.ok (String.toList "!important\n", [],
          some { styleTexts := [String.toList "!important"], inlineStyles := [] }) :=
  ⟨rfl, rfl, rfl, rfl⟩

/-- C7: the written-back style value is the rule's properties with the
pre-existing inline style appended after them (a semicolon separator
added to a nonempty existing value not already ending in one), so the
injected properties are a prefix and the inline declarations follow; an
element without an existing inline style receives exactly the
properties. -/
theorem c7_inline_style_precedence :
    ∀ (props s : List Char) (existing : Option (List Char)),
      applyStyleToElement props none = props
      ∧ (s.getLast? = some ';' → applyStyleToElement props (some s) = props ++ s)
      ∧ (¬ s.isEmpty → s.getLast? ≠ some ';' →
          applyStyleToElement props (some s) = props ++ (s ++ [';']))
      ∧ applyStyleToElement props (some []) = props
      ∧ ∃ t, applyStyleToElement props existing = props ++ t := by
  intro props s existing
  refine ⟨rfl, ?_, ?_, by simp [applyStyleToElement], ?_⟩
  · intro hlast
    simp [applyStyleToElement, hlast]
  · intro hne hlast
    simp only [applyStyleToElement]
    rw [if_pos ⟨by simpa using hne, hlast⟩]
  · cases existing with
    | none => exact ⟨[], by simp [applyStyleToElement]⟩
    | some s2 => exact ⟨_, rfl⟩

/-- C7 witness: an injected fill:red rule prepended to an existing
fill:blue inline style. -/
theorem c7_witness :
    applyStyleToElement (String.toList "fill:red;") (some (String.toList "fill:blue"))
      = String.toList "fill:red;fill:blue;" :=
  (c7_inline_style_precedence (String.toList "fill:red;") (String.toList "fill:blue")
      none).2.2.1 (by decide) (by decide)

/-- Oracle for a render whose resource creation fails outright. -/
def oracleRenderFail : RenderOracle :=
  { renderOracleOk with create := .error HResult.E_FAIL }

/-- Last-resort allocation failing. -/
def lrFail : LastResortOracle := { createDib := .error HResult.E_FAIL }

/-- Last-resort allocation succeeding. -/
def lrOk : LastResortOracle := { createDib := .ok () }

/-- An initialized provider. -/
def stWithData : ProviderState := { svgData := some svgPlain, lockPoisoned := false }

/-- C8 counterexample: the last resort is a fallible CreateDIBSection
call; when it fails after the placeholder render also failed, the
fallback returns an error and GetThumbnail returns a hard error with a
null bitmap instead of a bitmap. -/
theorem c8_counterexample :
    (create_fallback_thumbnail oracleRenderFail lrFail initialCache 1).1
      = Except.error HResult.E_FAIL
    ∧ (GetThumbnail oracleRenderFail oracleRenderFail lrFail stWithData
        initialCache 1).result = Except.error HResult.E_FAIL
    ∧ (GetThumbnail oracleRenderFail oracleRenderFail lrFail stWithData
        initialCache 1).phbmp = none :=
  ⟨rfl, rfl, rfl⟩

/-- C8 amended: the last resort performs one allocation and an opaque
solid fill; it can fail only when that allocation fails.  Whenever the
allocation succeeds, a failed placeholder render still yields the
opaque fill of the requested size, and GetThumbnail returns a bitmap
(never a hard error) whenever rendering fails. -/
theorem c8_amended :
    ∀ (oR oF : RenderOracle) (lr : LastResortOracle) (st : ProviderState)
      (svg : List Char) (c : CacheState) (cx : Nat) (e e' : HResult),
      lr.createDib = Except.ok () →
      ((render_svg_to_hbitmap oF c FALLBACK_SVG cx cx).result = Except.error e' →
        (create_fallback_thumbnail oF lr c cx).1 = Except.ok (lastResortPixels cx))
      ∧ (lastResortPixels cx).length = cx * cx * 4
      ∧ (st.lockPoisoned = false → st.svgData = some svg →
          (render_svg_to_hbitmap oR c svg cx cx).result = Except.error e →
          (GetThumbnail oR oF lr st c cx).result = Except.ok ()
          ∧ ∃ buf, (GetThumbnail oR oF lr st c cx).phbmp = some buf) := by
  intro oR oF lr st svg c cx e e' hdib
  refine ⟨?_, lastResortPixels_length cx, ?_⟩
  · intro hfb
    unfold create_fallback_thumbnail
    rw [hfb, hdib]
  · intro hlock hsvg hrender
    unfold GetThumbnail
    rw [if_neg (by simp [hlock]), hsvg]
    simp only [hrender]
    cases hfb : (render_svg_to_hbitmap oF (render_svg_to_hbitmap oR c svg cx cx).cacheOut
        FALLBACK_SVG cx cx).result with
    | ok v =>
      unfold create_fallback_thumbnail
      rw [hfb]
      exact ⟨rfl, ⟨v, rfl⟩⟩
    | error e2 =>
      unfold create_fallback_thumbnail
      rw [hfb, hdib]
      exact ⟨rfl, ⟨lastResortPixels cx, rfl⟩⟩

/-- C8 amended witness: failing render, succeeding allocation. -/
theorem c8_witness :
    (create_fallback_thumbnail oracleRenderFail lrOk initialCache 1).1
      = Except.ok (lastResortPixels 1)
    ∧ (GetThumbnail oracleRenderFail oracleRenderFail lrOk stWithData
        initialCache 1).result = Except.ok () :=
  ⟨(c8_amended oracleRenderFail oracleRenderFail lrOk stWithData svgPlain initialCache 1
      HResult.E_FAIL HResult.E_FAIL rfl).1 rfl,
    ((c8_amended oracleRenderFail oracleRenderFail lrOk stWithData svgPlain initialCache 1
      HResult.E_FAIL HResult.E_FAIL rfl).2.2 rfl rfl rfl).1⟩

/-- C9: on every error return of GetThumbnail the output parameters
still hold the defaults written first (null bitmap handle and
WTSAT_UNKNOWN), and WTSAT_ARGB appears only on a success return paired
with a non-null bitmap handle. -/
theorem c9_output_defaults :
    ∀ (oR oF : RenderOracle) (lr : LastResortOracle) (st : ProviderState)
      (c : CacheState) (cx : Nat),
      ((∃ e, (GetThumbnail oR oF lr st c cx).result = Except.error e) →
        (GetThumbnail oR oF lr st c cx).phbmp = none
        ∧ (GetThumbnail oR oF lr st c cx).pdwalpha = AlphaTy.unknown)
      ∧ ((GetThumbnail oR oF lr st c cx).pdwalpha = AlphaTy.argb →
        (GetThumbnail oR oF lr st c cx).result = Except.ok ()
        ∧ (GetThumbnail oR oF lr st c cx).phbmp ≠ none) := by
  intro oR oF lr st c cx
  unfold GetThumbnail
  split
  · exact ⟨fun _ => ⟨rfl, rfl⟩, fun hargb => by simp at hargb⟩
  · split
    · exact ⟨fun _ => ⟨rfl, rfl⟩, fun hargb => by simp at hargb⟩
    · split
      · exact ⟨fun ⟨e, he⟩ => by simp at he, fun _ => ⟨rfl, by simp⟩⟩
      · split
        · exact ⟨fun ⟨e, he⟩ => by simp at he, fun _ => ⟨rfl, by simp⟩⟩
        · exact ⟨fun _ => ⟨rfl, rfl⟩, fun hargb => by simp at hargb⟩

/-- An uninitialized provider. -/
def stUninit : ProviderState := { svgData := none, lockPoisoned := false }

/-- C9 witness: the uninitialized-provider error leaves the defaults. -/
theorem c9_witness :
    (GetThumbnail renderOracleOk renderOracleOk lrOk stUninit initialCache 1).phbmp = none
    ∧ (GetThumbnail renderOracleOk renderOracleOk lrOk stUninit initialCache 1).pdwalpha
      = AlphaTy.unknown :=
  (c9_output_defaults renderOracleOk renderOracleOk lrOk stUninit initialCache 1).1
    ⟨HResult.E_UNEXPECTED, rfl⟩

/-- C10: a second Initialize on an already initialized provider fails
with the already-initialized error leaving the stored bytes unchanged,
and every failing Initialize leaves the provider state exactly as it
was, so a failing call on an uninitialized provider stores nothing. -/
theorem c10_initialize_guard :
    ∀ (o : InitOracle) (st : ProviderState) (stream : Bool),
      (st.lockPoisoned = false → st.svgData.isSome →
        InitializeProvider o st stream = (Except.error HResult.ALREADY_INITIALIZED, st))
      ∧ (∀ (e : HResult) (st' : ProviderState),
          InitializeProvider o st stream = (Except.error e, st') → st' = st) := by
  intro o st stream
  constructor
  · intro hlock hsome
    unfold InitializeProvider
    rw [if_neg (by simp [hlock]), if_pos hsome]
  · intro e st' hinit
    unfold InitializeProvider at hinit
    split at hinit
    · exact (Prod.mk.inj hinit).2.symm
    · split at hinit
      · exact (Prod.mk.inj hinit).2.symm
      · split at hinit
        · exact (Prod.mk.inj hinit).2.symm
        · split at hinit
          · split at hinit
            · exact (Prod.mk.inj hinit).2.symm
            · unfold initializeReadPhase at hinit
              split at hinit
              · exact (Prod.mk.inj hinit).2.symm
              · exact absurd (Prod.mk.inj hinit).1 (by simp)
          · unfold initializeReadPhase at hinit
            split at hinit
            · exact (Prod.mk.inj hinit).2.symm
            · exact absurd (Prod.mk.inj hinit).1 (by simp)

/-- C10 witness: a repeated Initialize at a concrete initialized
provider. -/
theorem c10_witness :
    InitializeProvider { stat := none, reads := [] }
      { svgData := some [], lockPoisoned := false } true
      = (Except.error HResult.ALREADY_INITIALIZED,
          { svgData := some [], lockPoisoned := false }) :=
  (c10_initialize_guard { stat := none, reads := [] }
    { svgData := some [], lockPoisoned := false } true).1 rfl rfl

end SvgThumbs
